import Mathlib

set_option maxRecDepth 100000

/-!
Verification of the sliced count-metric anomaly detector of
`android_frameworks_base` (statsd).  The repository snapshot under
verification contains the end-to-end test
`cmds/statsd/tests/e2e/Anomaly_count_e2e_test.cpp`; the detector core
itself (AnomalyTracker, CountMetricProducer, the bucket ring) is not part
of the snapshot, so the core is modelled from the specification
(spec.md §3, §4.2–§4.4, §4.5) and validated against the concrete event
streams and assertions of the test file.
-/

namespace Statsd

/-- Modelled from the spec: a DimensionKey entry — one `(field_path, value)`
pair from the dimension projection (§3, §4.1).  The test keys carry the
atom id `WAKELOCK_STATE_CHANGED` and field path `0x02010101` with an
`i32` uid value. -/
structure FieldValue where
  atomId : Nat
  fieldPath : Nat
  value : Int
deriving DecidableEq, Repr

/-- Modelled from the spec: DimensionKey — an immutable ordered sequence of
`(field_path, value)` pairs; two keys are equal iff element-wise equal (§3). -/
abbrev DimKey := List FieldValue

/-- Modelled from the spec: BucketRing (§3, §4.2).  `slots` lists the counts
of the last `N` buckets newest-first: slot `k` holds the count of absolute
bucket `head - k` (the spec states exactly this invariant for the ring's
`k`-th slot mod `N`; the list is that circular buffer read from the head).
`head` is the absolute bucket index of the bucket currently being filled. -/
structure BucketRing where
  slots : List Nat
  head : Nat
deriving DecidableEq, Repr

namespace BucketRing

/-- Modelled from the spec: new rings are created with
`head_bucket_index = target` and all `N` slots 0 (§4.3 step 2). -/
def fresh (N target : Nat) : BucketRing :=
  ⟨List.replicate N 0, target⟩

/-- Modelled from the spec: `advance_to(target)` (§4.2).  If
`target ≤ head`, no-op (equal target, or late event attributed to the
current head).  Otherwise zero `min(target - head, N)` slots starting just
past the old head and set `head = target`: newest-first this prepends the
zeroed slots and drops the same number from the tail. -/
def advanceTo (r : BucketRing) (N target : Nat) : BucketRing :=
  if target ≤ r.head then r
  else
    let k := min (target - r.head) N
    ⟨List.replicate k 0 ++ r.slots.take (N - k), target⟩

/-- Modelled from the spec: `increment_current(delta)` adds `delta` to the
slot at `head_bucket_index` (§4.2) — the newest slot. -/
def incrementCurrent (r : BucketRing) (delta : Nat) : BucketRing :=
  match r.slots with
  | [] => r
  | c :: rest => ⟨(c + delta) :: rest, r.head⟩

/-- Modelled from the spec: `sliding_sum()` — sum of all `N` slots (§4.2). -/
def slidingSum (r : BucketRing) : Nat :=
  r.slots.sum

end BucketRing

/-- Modelled from the spec: alert/metric parameters (§4.4, §6): bucket
geometry `start_time_ns`, `bucket_size_ns`, and alert spec `num_buckets N`,
`threshold T` (`trigger_if_sum_gt`), `refractory_period_sec R`. -/
structure Params where
  startTimeNs : Nat
  bucketSizeNs : Nat
  numBuckets : Nat
  threshold : Nat
  refractorySec : Nat
deriving DecidableEq, Repr

/-- Modelled from the spec: `bucket_index(t) = (t - start_time_ns) /
bucket_size_ns` (§3). -/
def bucketIndex (p : Params) (t : Nat) : Nat :=
  (t - p.startTimeNs) / p.bucketSizeNs

/-- Modelled from the spec: per-alert tracker state — the SlicedCounter
`DimensionKey → BucketRing` (§4.3) and the refractory map
`DimensionKey → refractory_end_sec` (§3, §4.4), both as association
lists. -/
structure TrackerState where
  rings : List (DimKey × BucketRing)
  refractory : List (DimKey × Nat)
deriving DecidableEq, Repr

def emptyState : TrackerState := ⟨[], []⟩

/-- Association-list lookup used for both maps. -/
def alistFind (k : DimKey) : List (DimKey × α) → Option α
  | [] => none
  | (k', v) :: rest => if k' = k then some v else alistFind k rest

/-- Association-list update: bind `k` to `v`, shadowing any earlier entry. -/
def alistSet (k : DimKey) (v : α) (l : List (DimKey × α)) : List (DimKey × α) :=
  (k, v) :: l

def TrackerState.getRing (s : TrackerState) (k : DimKey) : Option BucketRing :=
  alistFind k s.rings

/-- Modelled from the spec: the introspection query
`refractory_end_sec(alert_id, slice_key)` returns 0 if no record (§6). -/
def TrackerState.getRefractoryPeriodEndsSec (s : TrackerState) (k : DimKey) : Nat :=
  (alistFind k s.refractory).getD 0

def NS_PER_SEC : Nat := 1000000000

/-- Modelled from the spec: the ring a slice update operates on — located or
freshly inserted, advanced to the event's bucket, then incremented by the
delta (§4.3 steps 1–4). -/
def updatedRing (p : Params) (s : TrackerState) (k : DimKey) (t : Nat) : BucketRing :=
  let target := bucketIndex p t
  let r0 := (s.getRing k).getD (BucketRing.fresh p.numBuckets target)
  (r0.advanceTo p.numBuckets target).incrementCurrent 1

/-- Modelled from the spec: one slice update followed by the detection step
(§4.3 `observe` with delta 1, then §4.4 steps 1–4).  Events that predate
`start_time_ns` are dropped silently (§3, §7).  Returns the new state and
whether the alert fired.  After the increment: if `sum ≤ T` do nothing;
else if `now_sec < refractory_end_sec` suppressed; else fire and set
`refractory_end_sec = now_sec + R + 1`. -/
def observe (p : Params) (s : TrackerState) (k : DimKey) (t : Nat) :
    TrackerState × Bool :=
  if t < p.startTimeNs then (s, false)
  else if p.threshold < (updatedRing p s k t).slidingSum ∧
      s.getRefractoryPeriodEndsSec k ≤ t / NS_PER_SEC then
    (⟨alistSet k (updatedRing p s k t) s.rings,
      alistSet k (t / NS_PER_SEC + p.refractorySec + 1) s.refractory⟩, true)
  else
    (⟨alistSet k (updatedRing p s k t) s.rings, s.refractory⟩, false)

/-- A decoded wakelock-acquire log event as built by
`CreateAcquireWakelockEvent` in the test: event time, the attribution
chain's uids and tags, and the wakelock name
(`Anomaly_count_e2e_test.cpp:96`). -/
structure LogEvent where
  timeNs : Nat
  attributionUids : List Int
  attributionTags : List String
  wakelockName : String
deriving DecidableEq, Repr

/-- The atom id of `WAKELOCK_STATE_CHANGED` (value 10 in the atoms
registry); the test's dimension field carries it. -/
def WAKELOCK_STATE_CHANGED : Nat := 10

/-- Modelled from the spec: the dimension projection configured by
`CreateStatsdConfig` — `dimensions_in_what` is the first attribution uid
(`CreateAttributionUidDimensions(WAKELOCK_STATE_CHANGED, {Position::FIRST})`,
`Anomaly_count_e2e_test.cpp:41`), the test's keys use field path
`0x02010101` (`Anomaly_count_e2e_test.cpp:86`).  An event lacking the
field yields no key and is dropped (§4.1). -/
def projectKey (e : LogEvent) : Option DimKey :=
  match e.attributionUids with
  | [] => none
  | uid :: _ => some [⟨WAKELOCK_STATE_CHANGED, 0x02010101, uid⟩]

/-- Modelled from the spec: MetricProducer `on_event` (§4.5) — project the
dimension key (dropping the event if projection fails), then run the slice
update and detection step with delta 1. -/
def onEvent (p : Params) (s : TrackerState) (e : LogEvent) : TrackerState × Bool :=
  match projectKey e with
  | none => (s, false)
  | some k => observe p s k e.timeNs

/-- Process a stream of decoded events in order (§5: strictly sequential
`on_event` calls). -/
def runEvents (p : Params) (s : TrackerState) (es : List LogEvent) : TrackerState :=
  es.foldl (fun st e => (onEvent p st e).1) s

/-- The fire flag of each event of a stream, in observation order. -/
def fireFlags (p : Params) (s : TrackerState) : List LogEvent → List Bool
  | [] => []
  | e :: es =>
    let r := onEvent p s e
    r.2 :: fireFlags p r.1 es

/-- Process a key/time stream directly at the tracker level. -/
def runObserve (p : Params) (s : TrackerState) (es : List (DimKey × Nat)) :
    TrackerState :=
  es.foldl (fun st e => (observe p st e.1 e.2).1) s

/-- The fire flags of the events of one slice `k` inside an interleaved
key/time stream, in order. -/
def fireFlagsFor (p : Params) (s : TrackerState) (k : DimKey) :
    List (DimKey × Nat) → List Bool
  | [] => []
  | e :: es =>
    let r := observe p s e.1 e.2
    if e.1 = k then r.2 :: fireFlagsFor p r.1 k es
    else fireFlagsFor p r.1 k es

/-! ### The test configuration and event streams

`CreateStatsdConfig(num_buckets, threshold)`: bucket `FIVE_MINUTES`
(300·10⁹ ns), refractory 10 s; processor start/bucket-start time
`10_000_000_000` ns. -/

def bucketStartTimeNs : Nat := 10000000000

def bucketSizeNs : Nat := 300000000000

/-- Parameters of `TestSlicedCountMetric_single_bucket`: 1 bucket,
threshold 3, refractory 10 s. -/
def singleParams : Params :=
  ⟨bucketStartTimeNs, bucketSizeNs, 1, 3, 10⟩

/-- Parameters of `TestSlicedCountMetric_multiple_buckets`: 3 buckets,
threshold 3, refractory 10 s. -/
def multiParams : Params :=
  ⟨bucketStartTimeNs, bucketSizeNs, 3, 3, 10⟩

/-- The slice key `dimensionKey1` of the tests: first attribution uid 111
(`Anomaly_count_e2e_test.cpp:86-89`). -/
def dimensionKey1 : DimKey := [⟨WAKELOCK_STATE_CHANGED, 0x02010101, 111⟩]

/-- The slice key `dimensionKey2` of the single-bucket test: first
attribution uid 222 (`Anomaly_count_e2e_test.cpp:91-94`). -/
def dimensionKey2 : DimKey := [⟨WAKELOCK_STATE_CHANGED, 0x02010101, 222⟩]

/-- The fourteen events of `TestSlicedCountMetric_single_bucket`, in
processing order (`Anomaly_count_e2e_test.cpp:96-170`). -/
def singleBucketEvents : List LogEvent :=
  [⟨bucketStartTimeNs + 2, [111], ["App1"], "wl1"⟩,
   ⟨bucketStartTimeNs + 2, [222, 333], ["GMSCoreModule1", "App3"], "wl2"⟩,
   ⟨bucketStartTimeNs + 3, [111, 222], ["App1", "GMSCoreModule1"], "wl1"⟩,
   ⟨bucketStartTimeNs + 3, [222], ["GMSCoreModule1"], "wl2"⟩,
   ⟨bucketStartTimeNs + 4, [111, 333], ["App1", "App3"], "wl1"⟩,
   ⟨bucketStartTimeNs + 4, [222], ["GMSCoreModule1"], "wl2"⟩,
   ⟨bucketStartTimeNs + 5, [111], ["App1"], "wl1"⟩,
   ⟨bucketStartTimeNs + 100, [111], ["App1"], "wl1"⟩,
   ⟨bucketStartTimeNs + bucketSizeNs - 1, [111], ["App1"], "wl1"⟩,
   ⟨bucketStartTimeNs + bucketSizeNs + 1, [111], ["App1"], "wl1"⟩,
   ⟨bucketStartTimeNs + bucketSizeNs + 1, [222, 333], ["GMSCoreModule1", "App3"], "wl2"⟩,
   ⟨bucketStartTimeNs + bucketSizeNs + 2, [222], ["GMSCoreModule1"], "wl2"⟩,
   ⟨bucketStartTimeNs + bucketSizeNs + 3, [222], ["GMSCoreModule1"], "wl2"⟩,
   ⟨bucketStartTimeNs + bucketSizeNs + 4, [222], ["GMSCoreModule1"], "wl2"⟩]

/-- The seven events of `TestSlicedCountMetric_multiple_buckets`
(`Anomaly_count_e2e_test.cpp:202-240`). -/
def multiBucketEvents : List LogEvent :=
  [⟨bucketStartTimeNs + 2, [111], ["App1"], "wl1"⟩,
   ⟨bucketStartTimeNs + 3, [111, 222], ["App1", "GMSCoreModule1"], "wl1"⟩,
   ⟨bucketStartTimeNs + 4, [111], ["App1"], "wl1"⟩,
   ⟨bucketStartTimeNs + bucketSizeNs + 1, [111], ["App1"], "wl1"⟩,
   ⟨bucketStartTimeNs + bucketSizeNs + 2, [111, 222], ["App1", "GMSCoreModule1"], "wl1"⟩,
   ⟨bucketStartTimeNs + 3 * bucketSizeNs + 1, [111, 222], ["App1", "GMSCoreModule1"], "wl1"⟩,
   ⟨bucketStartTimeNs + 3 * bucketSizeNs + 2, [111, 222], ["App1", "GMSCoreModule1"], "wl1"⟩]

/-- The single-bucket test's stream at the tracker level: each event's
projected slice key paired with its event time. -/
def singleKeyTimes : List (DimKey × Nat) :=
  singleBucketEvents.filterMap (fun e => (projectKey e).map (fun k => (k, e.timeNs)))

/-! ### Basic lemmas about the association-list maps and the detection step -/

theorem alistFind_set_self (k : DimKey) (v : α) (l : List (DimKey × α)) :
    alistFind k (alistSet k v l) = some v := by
  simp [alistSet, alistFind]

theorem alistFind_set_ne (k k' : DimKey) (v : α) (l : List (DimKey × α))
    (h : k' ≠ k) : alistFind k' (alistSet k v l) = alistFind k' l := by
  show (if k = k' then some v else alistFind k' l) = alistFind k' l
  rw [if_neg (fun hh => h hh.symm)]

/-- The view of a tracker state through one slice: its ring (if any) and its
refractory deadline. -/
def sliceView (s : TrackerState) (k : DimKey) : Option BucketRing × Nat :=
  (s.getRing k, s.getRefractoryPeriodEndsSec k)

/-- A fire can only happen past `start_time_ns`. -/
theorem observe_fire_not_dropped (p : Params) (s : TrackerState) (k : DimKey)
    (t : Nat) (hf : (observe p s k t).2 = true) : ¬ t < p.startTimeNs := by
  intro hts
  unfold observe at hf
  rw [if_pos hts] at hf
  exact Bool.false_ne_true hf

/-- A fire means the post-increment sliding sum exceeded the threshold and
the slice's refractory deadline had passed. -/
theorem observe_fire_cond (p : Params) (s : TrackerState) (k : DimKey)
    (t : Nat) (hf : (observe p s k t).2 = true) :
    p.threshold < (updatedRing p s k t).slidingSum ∧
      s.getRefractoryPeriodEndsSec k ≤ t / NS_PER_SEC := by
  by_cases hc : p.threshold < (updatedRing p s k t).slidingSum ∧
      s.getRefractoryPeriodEndsSec k ≤ t / NS_PER_SEC
  · exact hc
  · exfalso
    unfold observe at hf
    rw [if_neg (observe_fire_not_dropped p s k t hf), if_neg hc] at hf
    exact Bool.false_ne_true hf

/-- The refractory map after a fire. -/
theorem observe_fire_state (p : Params) (s : TrackerState) (k : DimKey)
    (t : Nat) (hf : (observe p s k t).2 = true) :
    (observe p s k t).1 =
      ⟨alistSet k (updatedRing p s k t) s.rings,
       alistSet k (t / NS_PER_SEC + p.refractorySec + 1) s.refractory⟩ := by
  unfold observe
  rw [if_neg (observe_fire_not_dropped p s k t hf),
    if_pos (observe_fire_cond p s k t hf)]

/-- When no fire happens the refractory map is untouched. -/
theorem observe_no_fire_refractory (p : Params) (s : TrackerState) (k : DimKey)
    (t : Nat) (hf : (observe p s k t).2 = false) :
    ((observe p s k t).1).refractory = s.refractory := by
  unfold observe at hf ⊢
  by_cases hts : t < p.startTimeNs
  · rw [if_pos hts]
  · rw [if_neg hts] at hf ⊢
    by_cases hc : p.threshold < (updatedRing p s k t).slidingSum ∧
        s.getRefractoryPeriodEndsSec k ≤ t / NS_PER_SEC
    · rw [if_pos hc] at hf
      exact absurd hf (by simp)
    · rw [if_neg hc]

/-- A suppressed update: while the event's second is below the slice's
refractory deadline, no fire happens and the refractory map is untouched. -/
theorem observe_suppressed (p : Params) (s : TrackerState) (k : DimKey)
    (t : Nat) (hlt : t / NS_PER_SEC < s.getRefractoryPeriodEndsSec k) :
    (observe p s k t).2 = false ∧
      ((observe p s k t).1).refractory = s.refractory := by
  have hc : ¬ (p.threshold < (updatedRing p s k t).slidingSum ∧
      s.getRefractoryPeriodEndsSec k ≤ t / NS_PER_SEC) :=
    fun h => absurd h.2 (not_le.mpr hlt)
  unfold observe
  by_cases hts : t < p.startTimeNs
  · rw [if_pos hts]
    exact ⟨rfl, rfl⟩
  · rw [if_neg hts, if_neg hc]
    exact ⟨rfl, rfl⟩

/-- An update for one slice leaves every other slice's ring and refractory
deadline untouched. -/
theorem observe_other_key (p : Params) (s : TrackerState) (k : DimKey)
    (t : Nat) (k' : DimKey) (hk : k' ≠ k) :
    ((observe p s k t).1).getRing k' = s.getRing k' ∧
      ((observe p s k t).1).getRefractoryPeriodEndsSec k' =
        s.getRefractoryPeriodEndsSec k' := by
  unfold observe
  by_cases hts : t < p.startTimeNs
  · rw [if_pos hts]
    exact ⟨rfl, rfl⟩
  · rw [if_neg hts]
    by_cases hc : p.threshold < (updatedRing p s k t).slidingSum ∧
        s.getRefractoryPeriodEndsSec k ≤ t / NS_PER_SEC
    · rw [if_pos hc]
      constructor
      · show alistFind k' (alistSet k (updatedRing p s k t) s.rings) = _
        rw [alistFind_set_ne k k' _ _ hk]
        rfl
      · show (alistFind k' (alistSet k _ s.refractory)).getD 0 = _
        rw [alistFind_set_ne k k' _ _ hk]
        rfl
    · rw [if_neg hc]
      constructor
      · show alistFind k' (alistSet k (updatedRing p s k t) s.rings) = _
        rw [alistFind_set_ne k k' _ _ hk]
        rfl
      · rfl

/-- A slice's refractory deadline never decreases across one update, for any
slice. -/
theorem observe_refr_le (p : Params) (s : TrackerState) (k : DimKey)
    (t : Nat) (k' : DimKey) :
    s.getRefractoryPeriodEndsSec k' ≤
      ((observe p s k t).1).getRefractoryPeriodEndsSec k' := by
  unfold observe
  by_cases hts : t < p.startTimeNs
  · rw [if_pos hts]
  · rw [if_neg hts]
    by_cases hc : p.threshold < (updatedRing p s k t).slidingSum ∧
        s.getRefractoryPeriodEndsSec k ≤ t / NS_PER_SEC
    · rw [if_pos hc]
      by_cases hk : k' = k
      · subst hk
        show _ ≤ (alistFind k' (alistSet k' _ s.refractory)).getD 0
        rw [alistFind_set_self]
        have := hc.2
        simp only [Option.getD_some]
        omega
      · show _ ≤ (alistFind k' (alistSet k _ s.refractory)).getD 0
        rw [alistFind_set_ne k k' _ _ hk]
        exact le_refl _
    · rw [if_neg hc]
      exact le_refl _

/-- A fire strictly increases the firing slice's refractory deadline. -/
theorem observe_refr_lt_of_fire (p : Params) (s : TrackerState) (k : DimKey)
    (t : Nat) (hf : (observe p s k t).2 = true) :
    s.getRefractoryPeriodEndsSec k <
      ((observe p s k t).1).getRefractoryPeriodEndsSec k := by
  rw [observe_fire_state p s k t hf]
  show _ < (alistFind k (alistSet k _ s.refractory)).getD 0
  rw [alistFind_set_self]
  have := (observe_fire_cond p s k t hf).2
  simp only [Option.getD_some]
  omega

/-- Across a whole key/time stream, a slice's refractory deadline never
decreases. -/
theorem runObserve_refr_le (p : Params) (es : List (DimKey × Nat)) :
    ∀ (s : TrackerState) (k : DimKey),
      s.getRefractoryPeriodEndsSec k ≤
        (runObserve p s es).getRefractoryPeriodEndsSec k := by
  induction es with
  | nil => intro s k; exact le_refl _
  | cons e es ih =>
    intro s k
    exact le_trans (observe_refr_le p s e.1 e.2 k) (ih (observe p s e.1 e.2).1 k)

/-- The update of one slice reads the state only through that slice's view:
two states agreeing on a slice produce the same fire decision and the same
new view for it. -/
theorem observe_congr (p : Params) (s1 s2 : TrackerState) (k : DimKey)
    (t : Nat) (h : sliceView s1 k = sliceView s2 k) :
    (observe p s1 k t).2 = (observe p s2 k t).2 ∧
      sliceView ((observe p s1 k t).1) k = sliceView ((observe p s2 k t).1) k := by
  have hr : s1.getRing k = s2.getRing k := congrArg Prod.fst h
  have hrf : s1.getRefractoryPeriodEndsSec k = s2.getRefractoryPeriodEndsSec k :=
    congrArg Prod.snd h
  have hur : updatedRing p s1 k t = updatedRing p s2 k t := by
    unfold updatedRing
    rw [hr]
  unfold observe
  by_cases hts : t < p.startTimeNs
  · rw [if_pos hts, if_pos hts]
    exact ⟨rfl, h⟩
  · rw [if_neg hts, if_neg hts]
    by_cases hc : p.threshold < (updatedRing p s1 k t).slidingSum ∧
        s1.getRefractoryPeriodEndsSec k ≤ t / NS_PER_SEC
    · have hc2 : p.threshold < (updatedRing p s2 k t).slidingSum ∧
          s2.getRefractoryPeriodEndsSec k ≤ t / NS_PER_SEC := by
        rw [← hur, ← hrf]
        exact hc
      rw [if_pos hc, if_pos hc2]
      refine ⟨rfl, ?_⟩
      unfold sliceView TrackerState.getRing TrackerState.getRefractoryPeriodEndsSec
      rw [alistFind_set_self, alistFind_set_self, alistFind_set_self,
        alistFind_set_self, hur]
    · have hc2 : ¬ (p.threshold < (updatedRing p s2 k t).slidingSum ∧
          s2.getRefractoryPeriodEndsSec k ≤ t / NS_PER_SEC) := by
        rw [← hur, ← hrf]
        exact hc
      rw [if_neg hc, if_neg hc2]
      refine ⟨rfl, ?_⟩
      unfold sliceView TrackerState.getRing TrackerState.getRefractoryPeriodEndsSec
      rw [alistFind_set_self, alistFind_set_self, hur]
      show (_, (alistFind k s1.refractory).getD 0) = (_, (alistFind k s2.refractory).getD 0)
      rw [show (alistFind k s1.refractory).getD 0 =
            (alistFind k s2.refractory).getD 0 from hrf]

/-- Processing a key/time stream affects a slice exactly as processing the
subsequence of that slice's own events: the slice's final view and the fire
flags of its events are identical. -/
theorem runObserve_filter (p : Params) (k : DimKey) :
    ∀ (es : List (DimKey × Nat)) (s1 s2 : TrackerState),
      sliceView s1 k = sliceView s2 k →
      sliceView (runObserve p s1 es) k =
          sliceView (runObserve p s2 (es.filter (fun e => e.1 = k))) k ∧
        fireFlagsFor p s1 k es =
          fireFlagsFor p s2 k (es.filter (fun e => e.1 = k)) := by
  intro es
  induction es with
  | nil => intro s1 s2 h; exact ⟨h, rfl⟩
  | cons e es ih =>
    intro s1 s2 h
    by_cases he : e.1 = k
    · have hfi : (e :: es).filter (fun x => x.1 = k) =
          e :: es.filter (fun x => x.1 = k) := by
        simp [List.filter_cons, he]
      have hstep := observe_congr p s1 s2 e.1 e.2 (by rw [he]; exact h)
      have hrest := ih (observe p s1 e.1 e.2).1 (observe p s2 e.1 e.2).1
        (by rw [← he]; exact hstep.2)
      rw [hfi]
      constructor
      · show sliceView (runObserve p (observe p s1 e.1 e.2).1 es) k = _
        exact hrest.1
      · show fireFlagsFor p s1 k (e :: es) = _
        unfold fireFlagsFor
        rw [if_pos he, if_pos he]
        rw [hstep.1]
        exact congrArg _ hrest.2
    · have hfi : (e :: es).filter (fun x => x.1 = k) =
          es.filter (fun x => x.1 = k) := by
        simp [List.filter_cons, he]
      have hview : sliceView ((observe p s1 e.1 e.2).1) k = sliceView s2 k := by
        have hother := observe_other_key p s1 e.1 e.2 k (fun hh => he hh.symm)
        unfold sliceView
        rw [hother.1, hother.2]
        exact h
      have hrest := ih (observe p s1 e.1 e.2).1 s2 hview
      rw [hfi]
      constructor
      · exact hrest.1
      · show (if e.1 = k then
              (observe p s1 e.1 e.2).2 :: fireFlagsFor p (observe p s1 e.1 e.2).1 k es
            else fireFlagsFor p (observe p s1 e.1 e.2).1 k es) = _
        rw [if_neg he]
        exact hrest.2

/-- Helper for C9: a slice whose refractory deadline is 0 and whose own
events never fire along a stream still queries 0 at the end, no matter how
often it is observed and counted. -/
theorem runObserve_refr_zero (p : Params) (k : DimKey) :
    ∀ (es : List (DimKey × Nat)) (s : TrackerState),
      s.getRefractoryPeriodEndsSec k = 0 →
      (∀ b ∈ fireFlagsFor p s k es, b = false) →
      (runObserve p s es).getRefractoryPeriodEndsSec k = 0 := by
  intro es
  induction es with
  | nil => intro s h0 _; exact h0
  | cons e es ih =>
    intro s h0 hflags
    by_cases he : e.1 = k
    · have hcons : fireFlagsFor p s k (e :: es) =
          (observe p s e.1 e.2).2 :: fireFlagsFor p (observe p s e.1 e.2).1 k es := by
        show (if e.1 = k then _ :: _ else _) = _
        rw [if_pos he]
      have hhead : (observe p s e.1 e.2).2 = false := by
        apply hflags
        rw [hcons]
        exact List.mem_cons_self _ _
      have h0' : ((observe p s e.1 e.2).1).getRefractoryPeriodEndsSec k = 0 := by
        unfold TrackerState.getRefractoryPeriodEndsSec
        rw [observe_no_fire_refractory p s e.1 e.2 hhead]
        exact h0
      apply ih _ h0'
      intro b hb
      apply hflags
      rw [hcons]
      exact List.mem_cons_of_mem _ hb
    · have h0' : ((observe p s e.1 e.2).1).getRefractoryPeriodEndsSec k = 0 := by
        rw [(observe_other_key p s e.1 e.2 k (fun hh => he hh.symm)).2]
        exact h0
      have hskip : fireFlagsFor p s k (e :: es) =
          fireFlagsFor p (observe p s e.1 e.2).1 k es := by
        show (if e.1 = k then _ :: _ else _) = _
        rw [if_neg he]
      apply ih _ h0'
      intro b hb
      apply hflags
      rw [hskip]
      exact hb

/-! ### Claim theorems -/

/-- C1: whenever the detection step fires for a slice on an event with time
`t` ns, that slice's refractory deadline is set to exactly
`t / 1_000_000_000 + R + 1` — bit-exact integer arithmetic, no rounding
variants. -/
theorem fire_sets_refractory_exact (p : Params) (s : TrackerState)
    (k : DimKey) (t : Nat) (hf : (observe p s k t).2 = true) :
    ((observe p s k t).1).getRefractoryPeriodEndsSec k =
      t / NS_PER_SEC + p.refractorySec + 1 := by
  rw [observe_fire_state p s k t hf]
  show (alistFind k (alistSet k _ s.refractory)).getD 0 = _
  rw [alistFind_set_self]
  rfl

/-- Witness for C1: the single-bucket test's fire at `base + 5` arms
deadline `(base + 5) / 1e9 + 10 + 1 = 21`. -/
theorem fire_sets_refractory_exact_witness :
    (observe singleParams (runEvents singleParams emptyState (singleBucketEvents.take 6))
        dimensionKey1 (bucketStartTimeNs + 5)).2 = true ∧
      ((observe singleParams (runEvents singleParams emptyState (singleBucketEvents.take 6))
          dimensionKey1 (bucketStartTimeNs + 5)).1).getRefractoryPeriodEndsSec dimensionKey1 =
        (bucketStartTimeNs + 5) / NS_PER_SEC + singleParams.refractorySec + 1 :=
  ⟨by decide,
   fire_sets_refractory_exact singleParams
     (runEvents singleParams emptyState (singleBucketEvents.take 6))
     dimensionKey1 (bucketStartTimeNs + 5) (by decide)⟩

/-- C2: the threshold comparison is strict — when the post-increment sliding
sum is at most the threshold, no fire occurs and the refractory map is
unchanged; in particular a sum exactly equal to the threshold never fires. -/
theorem sum_le_threshold_no_fire (p : Params) (s : TrackerState)
    (k : DimKey) (t : Nat)
    (hsum : (updatedRing p s k t).slidingSum ≤ p.threshold) :
    (observe p s k t).2 = false ∧
      ((observe p s k t).1).refractory = s.refractory := by
  have hc : ¬ (p.threshold < (updatedRing p s k t).slidingSum ∧
      s.getRefractoryPeriodEndsSec k ≤ t / NS_PER_SEC) :=
    fun h => absurd h.1 (not_lt.mpr hsum)
  unfold observe
  by_cases hts : t < p.startTimeNs
  · rw [if_pos hts]
    exact ⟨rfl, rfl⟩
  · rw [if_neg hts, if_neg hc]
    exact ⟨rfl, rfl⟩

/-- Witness for C2: slice `uid=222`'s third event of the new bucket brings
its sliding sum to exactly 3 = threshold and does not fire. -/
theorem sum_le_threshold_no_fire_witness :
    (updatedRing singleParams (runEvents singleParams emptyState (singleBucketEvents.take 12))
        dimensionKey2 (bucketStartTimeNs + bucketSizeNs + 3)).slidingSum ≤
      singleParams.threshold ∧
      (observe singleParams (runEvents singleParams emptyState (singleBucketEvents.take 12))
          dimensionKey2 (bucketStartTimeNs + bucketSizeNs + 3)).2 = false ∧
      ((observe singleParams (runEvents singleParams emptyState (singleBucketEvents.take 12))
          dimensionKey2 (bucketStartTimeNs + bucketSizeNs + 3)).1).refractory =
        (runEvents singleParams emptyState (singleBucketEvents.take 12)).refractory :=
  ⟨by decide,
   sum_le_threshold_no_fire singleParams
     (runEvents singleParams emptyState (singleBucketEvents.take 12))
     dimensionKey2 (bucketStartTimeNs + bucketSizeNs + 3) (by decide)⟩

/-- C3 counterexample: in scenario S3 the event at `base + 3·bucketSize + 1`
sees a sliding sum of 3 — not 1 as claimed (the bucket with count 2 is
still inside the 3-bucket window) — and the event at
`base + 3·bucketSize + 2` does fire, moving the refractory deadline, which
the claim says stays at its previous value. -/
theorem s3_tail_counterexample :
    (updatedRing multiParams (runEvents multiParams emptyState (multiBucketEvents.take 5))
        dimensionKey1 (bucketStartTimeNs + 3 * bucketSizeNs + 1)).slidingSum ≠ 1 ∧
      (observe multiParams (runEvents multiParams emptyState (multiBucketEvents.take 6))
          dimensionKey1 (bucketStartTimeNs + 3 * bucketSizeNs + 2)).2 = true ∧
      (runEvents multiParams emptyState (multiBucketEvents.take 7)).getRefractoryPeriodEndsSec
          dimensionKey1 ≠
        (runEvents multiParams emptyState (multiBucketEvents.take 6)).getRefractoryPeriodEndsSec
          dimensionKey1 := by
  decide

/-- C3 amended: in scenario S3 the event at `base + 3·bucketSize + 1` sees a
sliding sum of 3 (the window still holds the bucket with count 2) and does
not fire; the event at `base + 3·bucketSize + 2` sees a sliding sum of 4 > 3
and — the refractory having expired — fires, setting the slice's refractory
deadline to `(base + 3·bucketSize + 2) / 1e9 + 10 + 1`, exactly as the e2e
test asserts. -/
theorem s3_tail_amended :
    (updatedRing multiParams (runEvents multiParams emptyState (multiBucketEvents.take 5))
        dimensionKey1 (bucketStartTimeNs + 3 * bucketSizeNs + 1)).slidingSum = 3 ∧
      fireFlags multiParams emptyState multiBucketEvents =
        [false, false, false, true, false, false, true] ∧
      (runEvents multiParams emptyState (multiBucketEvents.take 6)).getRefractoryPeriodEndsSec
          dimensionKey1 =
        (runEvents multiParams emptyState (multiBucketEvents.take 5)).getRefractoryPeriodEndsSec
          dimensionKey1 ∧
      (updatedRing multiParams (runEvents multiParams emptyState (multiBucketEvents.take 6))
          dimensionKey1 (bucketStartTimeNs + 3 * bucketSizeNs + 2)).slidingSum = 4 ∧
      (runEvents multiParams emptyState multiBucketEvents).getRefractoryPeriodEndsSec
          dimensionKey1 =
        (bucketStartTimeNs + 3 * bucketSizeNs + 2) / NS_PER_SEC + 10 + 1 := by
  decide

/-- C4: after a fire for a slice at event time `t`, every later event for
the same slice whose event-time second is below the armed refractory
deadline does not fire and leaves the refractory map unchanged, no matter
how large the sliding sum is. -/
theorem refractory_suppresses_later_events (p : Params) (s : TrackerState)
    (k : DimKey) (t : Nat) (es : List (DimKey × Nat)) (t' : Nat)
    (_hfire : (observe p s k t).2 = true)
    (hlt : t' / NS_PER_SEC <
      ((observe p s k t).1).getRefractoryPeriodEndsSec k) :
    (observe p (runObserve p (observe p s k t).1 es) k t').2 = false ∧
      ((observe p (runObserve p (observe p s k t).1 es) k t').1).getRefractoryPeriodEndsSec k =
        (runObserve p (observe p s k t).1 es).getRefractoryPeriodEndsSec k := by
  have hmono := runObserve_refr_le p es (observe p s k t).1 k
  have hsup := observe_suppressed p (runObserve p (observe p s k t).1 es) k t'
    (lt_of_lt_of_le hlt hmono)
  refine ⟨hsup.1, ?_⟩
  unfold TrackerState.getRefractoryPeriodEndsSec
  rw [hsup.2]

/-- Witness for C4: the fire at `base + 5` arms deadline 21; the event at
`base + 100` is in second 10 < 21 and is suppressed. -/
theorem refractory_suppresses_later_events_witness :
    (observe singleParams (runEvents singleParams emptyState (singleBucketEvents.take 6))
        dimensionKey1 (bucketStartTimeNs + 5)).2 = true ∧
      (observe singleParams
          (runObserve singleParams
            (observe singleParams (runEvents singleParams emptyState (singleBucketEvents.take 6))
              dimensionKey1 (bucketStartTimeNs + 5)).1 [])
          dimensionKey1 (bucketStartTimeNs + 100)).2 = false :=
  ⟨by decide,
   (refractory_suppresses_later_events singleParams
     (runEvents singleParams emptyState (singleBucketEvents.take 6))
     dimensionKey1 (bucketStartTimeNs + 5) [] (bucketStartTimeNs + 100)
     (by decide) (by decide)).1⟩

/-- C5: for every slice, the refractory deadline is non-decreasing across
any event stream, and every fire strictly increases the firing slice's
deadline (so deadlines are strictly increasing across successive fires). -/
theorem refractory_monotone_and_strict (p : Params) (s : TrackerState)
    (es : List (DimKey × Nat)) (k : DimKey) (t : Nat) :
    s.getRefractoryPeriodEndsSec k ≤
        (runObserve p s es).getRefractoryPeriodEndsSec k ∧
      ((observe p s k t).2 = true →
        s.getRefractoryPeriodEndsSec k <
          ((observe p s k t).1).getRefractoryPeriodEndsSec k) :=
  ⟨runObserve_refr_le p es s k, fun hf => observe_refr_lt_of_fire p s k t hf⟩

/-- Witness for C5: after the first fire (deadline 21), processing the rest
of the single-bucket stream never lowers the deadline, and the refire at
`base + bucketSize - 1` strictly raises it. -/
theorem refractory_monotone_and_strict_witness :
    (runEvents singleParams emptyState (singleBucketEvents.take 7)).getRefractoryPeriodEndsSec
        dimensionKey1 ≤
      (runObserve singleParams (runEvents singleParams emptyState (singleBucketEvents.take 7))
          [(dimensionKey1, bucketStartTimeNs + 100)]).getRefractoryPeriodEndsSec dimensionKey1 ∧
      (runEvents singleParams emptyState (singleBucketEvents.take 8)).getRefractoryPeriodEndsSec
          dimensionKey1 <
        ((observe singleParams (runEvents singleParams emptyState (singleBucketEvents.take 8))
            dimensionKey1 (bucketStartTimeNs + bucketSizeNs - 1)).1).getRefractoryPeriodEndsSec
          dimensionKey1 :=
  ⟨(refractory_monotone_and_strict singleParams
      (runEvents singleParams emptyState (singleBucketEvents.take 7))
      [(dimensionKey1, bucketStartTimeNs + 100)] dimensionKey1 0).1,
   (refractory_monotone_and_strict singleParams
      (runEvents singleParams emptyState (singleBucketEvents.take 8))
      [] dimensionKey1 (bucketStartTimeNs + bucketSizeNs - 1)).2 (by decide)⟩

/-- C6: slice noninterference — an update for one slice leaves every other
slice's ring and refractory deadline untouched, and interleaving other
slices' events into a stream changes neither a slice's final ring and
deadline nor the fire flags of its own events, compared with processing its
events alone. -/
theorem slice_noninterference (p : Params) (s : TrackerState) (k k' : DimKey)
    (t : Nat) (es : List (DimKey × Nat)) (hk : k' ≠ k) :
    (((observe p s k t).1).getRing k' = s.getRing k' ∧
        ((observe p s k t).1).getRefractoryPeriodEndsSec k' =
          s.getRefractoryPeriodEndsSec k') ∧
      sliceView (runObserve p s es) k =
        sliceView (runObserve p s (es.filter (fun e => e.1 = k))) k ∧
      fireFlagsFor p s k es =
        fireFlagsFor p s k (es.filter (fun e => e.1 = k)) :=
  ⟨observe_other_key p s k t k' hk,
   (runObserve_filter p k es s s rfl).1,
   (runObserve_filter p k es s s rfl).2⟩

/-- Witness for C6: with the interleaved single-bucket stream, slice
`uid=111`'s view and fire flags match the run on its own events alone, and
one of its updates leaves slice `uid=222` untouched. -/
theorem slice_noninterference_witness :
    (((observe singleParams emptyState dimensionKey1 (bucketStartTimeNs + 2)).1).getRing
          dimensionKey2 = emptyState.getRing dimensionKey2 ∧
        ((observe singleParams emptyState dimensionKey1 (bucketStartTimeNs + 2)).1).getRefractoryPeriodEndsSec
            dimensionKey2 = emptyState.getRefractoryPeriodEndsSec dimensionKey2) ∧
      sliceView (runObserve singleParams emptyState singleKeyTimes) dimensionKey1 =
        sliceView (runObserve singleParams emptyState
          (singleKeyTimes.filter (fun e => e.1 = dimensionKey1))) dimensionKey1 ∧
      fireFlagsFor singleParams emptyState dimensionKey1 singleKeyTimes =
        fireFlagsFor singleParams emptyState dimensionKey1
          (singleKeyTimes.filter (fun e => e.1 = dimensionKey1)) :=
  slice_noninterference singleParams emptyState dimensionKey1 dimensionKey2
    (bucketStartTimeNs + 2) singleKeyTimes (by decide)

/-- C7: a slice can re-fire within the same bucket once its refractory has
expired — in scenario S1 the first fire at `base + 5` armed deadline 21;
at `base + bucketSize - 1` the single bucket's count is 6 (the suppressed
events were still counted), the event's second 309 is past 21, so it fires
again and the deadline becomes `10 + (base + bucketSize - 1) / 1e9 + 1`. -/
theorem s1_refire_within_bucket :
    (runEvents singleParams emptyState (singleBucketEvents.take 8)).getRefractoryPeriodEndsSec
        dimensionKey1 = 21 ∧
      (updatedRing singleParams (runEvents singleParams emptyState (singleBucketEvents.take 8))
          dimensionKey1 (bucketStartTimeNs + bucketSizeNs - 1)).slidingSum = 6 ∧
      (observe singleParams (runEvents singleParams emptyState (singleBucketEvents.take 8))
          dimensionKey1 (bucketStartTimeNs + bucketSizeNs - 1)).2 = true ∧
      (runEvents singleParams emptyState (singleBucketEvents.take 9)).getRefractoryPeriodEndsSec
          dimensionKey1 =
        10 + (bucketStartTimeNs + bucketSizeNs - 1) / NS_PER_SEC + 1 := by
  decide

/-- C8: crossing a bucket boundary discards the tail bucket's contribution
before the new event is counted — slice `uid=222` reached count 3 in the
first bucket, its first event of the next bucket sees sliding sum 0 + 1 = 1,
only its fourth event of the new bucket fires (sum 4 > 3), arming deadline
`10 + (base + bucketSize + 4) / 1e9 + 1`. -/
theorem s2_tail_discard_fire :
    (updatedRing singleParams (runEvents singleParams emptyState (singleBucketEvents.take 10))
        dimensionKey2 (bucketStartTimeNs + bucketSizeNs + 1)).slidingSum = 1 ∧
      fireFlagsFor singleParams emptyState dimensionKey2 singleKeyTimes =
        [false, false, false, false, false, false, true] ∧
      (updatedRing singleParams (runEvents singleParams emptyState (singleBucketEvents.take 13))
          dimensionKey2 (bucketStartTimeNs + bucketSizeNs + 4)).slidingSum = 4 ∧
      (runEvents singleParams emptyState singleBucketEvents).getRefractoryPeriodEndsSec
          dimensionKey2 =
        10 + (bucketStartTimeNs + bucketSizeNs + 4) / NS_PER_SEC + 1 := by
  decide

/-- C9: the introspection query returns 0 for every slice without a
refractory record, and a slice that never fires along a stream — however
often it is observed and counted — still queries 0, indistinguishable from
an absent entry. -/
theorem refr_query_zero_when_never_fired (p : Params) (k : DimKey)
    (es : List (DimKey × Nat)) (s : TrackerState) :
    (alistFind k s.refractory = none → s.getRefractoryPeriodEndsSec k = 0) ∧
      (s.getRefractoryPeriodEndsSec k = 0 →
        (∀ b ∈ fireFlagsFor p s k es, b = false) →
        (runObserve p s es).getRefractoryPeriodEndsSec k = 0) :=
  ⟨fun h => by
      unfold TrackerState.getRefractoryPeriodEndsSec
      rw [h]
      rfl,
   fun h0 hfl => runObserve_refr_zero p k es s h0 hfl⟩

/-- Witness for C9: slice `uid=222` is observed three times in the first
bucket without firing, and its query still returns 0. -/
theorem refr_query_zero_when_never_fired_witness :
    (runObserve singleParams emptyState (singleKeyTimes.take 6)).getRefractoryPeriodEndsSec
      dimensionKey2 = 0 :=
  (refr_query_zero_when_never_fired singleParams dimensionKey2
    (singleKeyTimes.take 6) emptyState).2 (by decide) (by decide)

/-- C10: the slice key depends only on the configured dimension projection
(the first attribution uid); all other event fields are ignored — events
whose first attribution uid is 111 project to the same key whatever their
later uids, tags or wakelock name, and in the single-bucket test those
events all feed one slice, whose count reaches 4 at `base + 5` and fires. -/
theorem slice_key_only_from_projection :
    (∀ e e' : LogEvent, e.attributionUids.head? = e'.attributionUids.head? →
        projectKey e = projectKey e') ∧
      singleBucketEvents.map projectKey =
        [some dimensionKey1, some dimensionKey2, some dimensionKey1, some dimensionKey2,
         some dimensionKey1, some dimensionKey2, some dimensionKey1, some dimensionKey1,
         some dimensionKey1, some dimensionKey1, some dimensionKey2, some dimensionKey2,
         some dimensionKey2, some dimensionKey2] ∧
      (updatedRing singleParams (runEvents singleParams emptyState (singleBucketEvents.take 6))
          dimensionKey1 (bucketStartTimeNs + 5)).slidingSum = 4 ∧
      (runEvents singleParams emptyState (singleBucketEvents.take 7)).getRefractoryPeriodEndsSec
          dimensionKey1 = 21 := by
  refine ⟨?_, by decide, by decide, by decide⟩
  intro e e' h
  rcases hu : e.attributionUids with _ | ⟨u, us⟩ <;>
    rcases hu' : e'.attributionUids with _ | ⟨u', us'⟩ <;>
    rw [hu, hu'] at h <;>
    simp_all [projectKey]

/-- Witness for C10: two events sharing first uid 111 but differing in the
rest of the attribution chain, tags and wakelock name get the same key. -/
theorem slice_key_only_from_projection_witness :
    (LogEvent.mk (bucketStartTimeNs + 2) [111] ["App1"] "wl1").attributionUids.head? =
        (LogEvent.mk (bucketStartTimeNs + 3) [111, 222] ["App1", "GMSCoreModule1"] "wl2").attributionUids.head? ∧
      projectKey (LogEvent.mk (bucketStartTimeNs + 2) [111] ["App1"] "wl1") =
        projectKey (LogEvent.mk (bucketStartTimeNs + 3) [111, 222] ["App1", "GMSCoreModule1"] "wl2") :=
  ⟨by decide,
   slice_key_only_from_projection.1
     (LogEvent.mk (bucketStartTimeNs + 2) [111] ["App1"] "wl1")
     (LogEvent.mk (bucketStartTimeNs + 3) [111, 222] ["App1", "GMSCoreModule1"] "wl2")
     (by decide)⟩

end Statsd
